import Mathlib

set_option maxHeartbeats 1000000

/-!
Shallow embedding of the demand-forecasting system (pronostico-demanda-collins).

Conventions of the embedding:
* Dates are month indices (`ℤ`): the training data is at a monthly cadence and
  every date arithmetic in the source (`pd.DateOffset(months=i+1)`,
  `pd.date_range(..., freq='ME')`) advances whole months, so one month is one unit.
* Numeric values are exact rationals (`ℚ`).  The one primitive that escapes ℚ is
  the square root used by `np.std` and pandas' rolling `std`; every definition
  that needs it takes the square-root function `sq : ℚ → ℚ` as an explicit
  parameter and applies it to the exact variance.
* External estimators (the fitted sklearn regressor, the statsmodels ARIMA
  result, the Prophet model) are opaque in the source - the repository only
  prepares their inputs and reshapes their outputs - and are embedded as
  opaque function-valued fields of the model states.
* A Python method that can raise is embedded as a function into `Except`.
-/

/-- Error taxonomy of the system (spec section 7).  The Python source raises
`ValueError` with distinguishing messages; the spec names the conditions
`StateError` (lifecycle violation such as predict-before-fit),
`ConfigurationError` (unknown aggregation method or model type) and
`SchemaError` (expected derived columns missing).  `keyError` models a pandas
`KeyError` for a column access on a frame that lacks the column. -/
inductive ForecastError where
  | stateError : String → ForecastError
  | configurationError : String → ForecastError
  | schemaError : String → ForecastError
  | keyError : String → ForecastError
deriving DecidableEq

/-- One row of a predictions DataFrame: columns `date`, `prediction`,
`lower_bound`, `upper_bound` (the common schema every model returns). -/
structure PredictionRecord where
  date : ℤ
  prediction : ℚ
  lower_bound : ℚ
  upper_bound : ℚ
deriving DecidableEq

/-- Arithmetic mean of a list of rationals (`pandas`/`numpy` mean). -/
def qMean (l : List ℚ) : ℚ := l.sum / l.length

/-- Population variance (`np.std` uses `ddof=0`); its square root is the
standard deviation `np.std` returns. -/
def popVar (l : List ℚ) : ℚ :=
  (l.map (fun x => (x - qMean l) ^ 2)).sum / l.length

/-- Sample variance (`pandas` rolling `std` uses `ddof=1`). -/
def sampleVar (l : List ℚ) : ℚ :=
  (l.map (fun x => (x - qMean l) ^ 2)).sum / ((l.length : ℚ) - 1)

/-- Last `n` elements of a list (`DataFrame.tail(n)` / a rolling window). -/
def lastN (n : ℕ) (l : List ℚ) : List ℚ := l.drop (l.length - n)

/-- Insertion step of an ascending insertion sort on rationals. -/
def insertQ (x : ℚ) : List ℚ → List ℚ
  | [] => [x]
  | y :: ys => if x ≤ y then x :: y :: ys else y :: insertQ x ys

/-- Ascending sort on rationals (used by the `median` aggregation). -/
def sortQ (l : List ℚ) : List ℚ := l.foldr insertQ []

/-- Median as `pandas` computes it: middle element of the sorted list for odd
length, average of the two middle elements for even length. -/
def medianQ (l : List ℚ) : ℚ :=
  let s := sortQ l
  if l.length % 2 = 1 then s.getD (l.length / 2) 0
  else (s.getD (l.length / 2 - 1) 0 + s.getD (l.length / 2) 0) / 2

/-- Minimum of a list of rationals (groupby `min`); 0 on the empty list, which
is never hit because a groupby group is nonempty. -/
def listMin : List ℚ → ℚ
  | [] => 0
  | x :: xs => xs.foldl min x

/-- Maximum of a list of rationals (groupby `max`). -/
def listMax : List ℚ → ℚ
  | [] => 0
  | x :: xs => xs.foldl max x

/-- Maximum of a list of dates (`pd.to_datetime(data[date_column]).max()`). -/
def listMaxZ : List ℤ → ℤ
  | [] => 0
  | x :: xs => xs.foldl max x

/-- Calendar month (1..12) of a month index. -/
def monthOfIndex (d : ℤ) : ℤ := d.emod 12 + 1

/-- Calendar year of a month index. -/
def yearOfIndex (d : ℤ) : ℤ := d.ediv 12

/-- Day of year of the first day of a month (non-leap year).  The source's
`day_of_year` feature depends on the day-of-month, which sits below the
month-index granularity of this embedding; it is modelled as the canonical
day-of-year of the month. -/
def dayOfYearOfMonth (mo : ℤ) : ℤ :=
  if mo = 1 then 1 else if mo = 2 then 32 else if mo = 3 then 60
  else if mo = 4 then 91 else if mo = 5 then 121 else if mo = 6 then 152
  else if mo = 7 then 182 else if mo = 8 then 213 else if mo = 9 then 244
  else if mo = 10 then 274 else if mo = 11 then 305 else 335

/-- The feature row fed to the regressor: the `feature_cols` list of
`MLRegressionModel` (`year`, `month`, `quarter`, `day_of_year`, lags 1,2,3,6,12,
rolling means over windows 3 and 6, rolling std over window 3).  A lag or a
rolling std that pandas leaves as NaN is `none`. -/
structure Features where
  year : ℤ
  month : ℤ
  quarter : ℤ
  day_of_year : ℤ
  lag_1 : Option ℚ
  lag_2 : Option ℚ
  lag_3 : Option ℚ
  lag_6 : Option ℚ
  lag_12 : Option ℚ
  rolling_mean_3 : ℚ
  rolling_mean_6 : ℚ
  rolling_std_3 : Option ℚ

/-- Value of `target.shift(k)` at the last row of a frame whose target column
is `ts`: the element `k` positions before the end, NaN (`none`) if the frame
is too short. -/
def lagAt (ts : List ℚ) (k : ℕ) : Option ℚ :=
  if k < ts.length then ts.get? (ts.length - 1 - k) else none

/-- Rolling mean over window `w` (with `min_periods=1`) at the last row. -/
def rollingMeanLast (w : ℕ) (ts : List ℚ) : ℚ := qMean (lastN w ts)

/-- Rolling std over window 3 (`min_periods=1`, `ddof=1`) at the last row:
NaN (`none`) when the window holds fewer than two values. -/
def rollingStd3Last (sq : ℚ → ℚ) (ts : List ℚ) : Option ℚ :=
  if 2 ≤ (lastN 3 ts).length then some (sq (sampleVar (lastN 3 ts))) else none

/-- Features of the last row of a frame whose last-row date is `d` and whose
target column is `ts` (the body of `_create_features` restricted to the one
row `predict` reads, `df_features.iloc[-1]`). -/
def mkFeatures (sq : ℚ → ℚ) (d : ℤ) (ts : List ℚ) : Features :=
  { year := yearOfIndex d
    month := monthOfIndex d
    quarter := (monthOfIndex d - 1) / 3 + 1
    day_of_year := dayOfYearOfMonth (monthOfIndex d)
    lag_1 := lagAt ts 1
    lag_2 := lagAt ts 2
    lag_3 := lagAt ts 3
    lag_6 := lagAt ts 6
    lag_12 := lagAt ts 12
    rolling_mean_3 := rollingMeanLast 3 ts
    rolling_mean_6 := rollingMeanLast 6 ts
    rolling_std_3 := rollingStd3Last sq ts }

/-- State of `MLRegressionModel`: the fitted flag, the stored last training
date, the target column of the stored `last_values` frame (`data.tail(12)`),
and the opaque fitted sklearn regressor as a function from a feature row to
its point prediction. -/
structure MLRegressionModel where
  name : String
  is_fitted : Bool
  last_date : ℤ
  lastValues : List ℚ
  model : Features → ℚ

/-- The recursive forecast loop of `MLRegressionModel.predict` (lines
124-162).  Fuel `n` is the number of remaining periods, `i` the number of
periods already produced, `cur` the target column of `current_data` (the
sliding window of the last at most 12 known-or-predicted values).  Each step
appends a placeholder 0 for the next row, builds the last row's features,
queries the regressor, then slides the window forward with the prediction
substituted for the placeholder. -/
def mlPredictLoop (m : MLRegressionModel) (sq : ℚ → ℚ) :
    ℕ → ℕ → List ℚ → List (ℤ × ℚ)
  | 0, _, _ => []
  | Nat.succ n, i, cur =>
    let d : ℤ := m.last_date + ((i : ℤ) + 1)
    let pred := m.model (mkFeatures sq d (cur ++ [0]))
    (d, pred) :: mlPredictLoop m sq n (i + 1) (lastN 12 (cur ++ [pred]))

/-- Standard deviation that `predict` takes of the stored historical target
values: `np.std(self.last_values[self.target_column])`. -/
def histStd (sq : ℚ → ℚ) (m : MLRegressionModel) : ℚ := sq (popVar m.lastValues)

/-- One row of the predictions frame after the bound columns are attached:
`std_error = np.std(last_values[target]) * 0.5` and the interval is the point
prediction plus or minus `1.96 * std_error`, the same constant for every row. -/
def boundsRow (sq : ℚ → ℚ) (m : MLRegressionModel) (p : ℤ × ℚ) : PredictionRecord :=
  { date := p.1
    prediction := p.2
    lower_bound := p.2 - (196 / 100) * (histStd sq m * (1 / 2))
    upper_bound := p.2 + (196 / 100) * (histStd sq m * (1 / 2)) }

/-- Lines 164-170 of `MLRegressionModel.predict`: build the predictions frame
and attach the fixed symmetric confidence interval.  On an empty prediction
list `pd.DataFrame([])` has no columns at all, so the column access
`predictions_df['prediction']` raises a `KeyError`. -/
def mlAddBounds (sq : ℚ → ℚ) (m : MLRegressionModel) (raw : List (ℤ × ℚ)) :
    Except ForecastError (List PredictionRecord) :=
  match raw with
  | [] => .error (.keyError "prediction")
  | _ :: _ => .ok (raw.map (boundsRow sq m))

/-- `MLRegressionModel.predict`: guard on the fitted flag, run the recursive
loop from the stored window, attach bounds. -/
def MLRegressionModel.predict (m : MLRegressionModel) (sq : ℚ → ℚ)
    (periods : ℕ) : Except ForecastError (List PredictionRecord) :=
  if m.is_fitted then mlAddBounds sq m (mlPredictLoop m sq periods 0 m.lastValues)
  else .error (.stateError "Model must be fitted before making predictions")

/-- `MLRegressionModel.fit` (the state it stores; the sklearn estimator
fitting itself is external and arrives as the opaque `trainer`): records the
maximal training date, keeps the target column of `data.tail(12)` for future
lag features, and sets the fitted flag.  `data` is the training frame as a
list of (month index, target value) rows. -/
def MLRegressionModel.fit (m : MLRegressionModel)
    (trainer : List (ℤ × ℚ) → Features → ℚ) (data : List (ℤ × ℚ)) :
    MLRegressionModel :=
  { m with
    is_fitted := true
    last_date := listMaxZ (data.map Prod.fst)
    lastValues := lastN 12 (data.map Prod.snd)
    model := trainer data }

/-- State of `ARIMAModel`: the fitted flag, the stored last training date, and
the opaque fitted statsmodels result - `forecastFn steps i` is the point
forecast and the two `conf_int` columns at step `i` of `forecast(steps)`. -/
structure ARIMAModel where
  name : String
  is_fitted : Bool
  last_date : ℤ
  forecastFn : ℕ → ℕ → ℚ × ℚ × ℚ

/-- `ARIMAModel.predict`: guard on the fitted flag, then pair the external
forecast values with `pd.date_range(start=last_date + 1 month, periods,
freq='ME')`, i.e. the `periods` consecutive months after the last training
date. -/
def ARIMAModel.predict (a : ARIMAModel) (periods : ℕ) :
    Except ForecastError (List PredictionRecord) :=
  if a.is_fitted then
    .ok ((List.range periods).map (fun (i : ℕ) =>
      { date := a.last_date + ((i : ℤ) + 1)
        prediction := (a.forecastFn periods i).1
        lower_bound := (a.forecastFn periods i).2.1
        upper_bound := (a.forecastFn periods i).2.2 }))
  else .error (.stateError "Model must be fitted before making predictions")

/-- State of `ProphetModel`: the fitted flag and the opaque Prophet forecast -
`forecastFn periods` is the tail of the renamed forecast frame. -/
structure ProphetModel where
  name : String
  is_fitted : Bool
  forecastFn : ℕ → List PredictionRecord

/-- `ProphetModel.predict`: guard on the fitted flag, then return the external
forecast reshaped into the common schema. -/
def ProphetModel.predict (ph : ProphetModel) (periods : ℕ) :
    Except ForecastError (List PredictionRecord) :=
  if ph.is_fitted then .ok (ph.forecastFn periods)
  else .error (.stateError "Model must be fitted before making predictions")

/-- The slice of a registered model's state that `ForecastManager`
orchestration observes: its name, its fitted flag, and whether its `fit`
raises on the training data of the run (the concrete fitting work is the
model's own and external). -/
structure BaseModelState where
  name : String
  is_fitted : Bool
  fit_raises : Bool
deriving DecidableEq

/-- A registered model's `fit` as the manager sees it: it either completes -
setting the fitted flag - or raises some exception. -/
def BaseModelState.fit (m : BaseModelState) : Except ForecastError BaseModelState :=
  if m.fit_raises then .error (.configurationError m.name)
  else .ok { m with is_fitted := true }

/-- `ForecastManager` state: the registry (an insertion-ordered dict from
model name to model) and the stored predictions dict from the last
`predict_all` run. -/
structure ForecastManager where
  models : List (String × BaseModelState)
  predictions : List (String × List PredictionRecord)

/-- `ForecastManager.fit_all`: iterate the registry, fit each model inside a
`try`/`except` that catches any exception and moves on, so the method itself
never raises and a failed model keeps its previous state. -/
def ForecastManager.fit_all (mgr : ForecastManager) : ForecastManager :=
  { mgr with
    models := mgr.models.map (fun p =>
      match p.2.fit with
      | .ok m2 => (p.1, m2)
      | .error _ => p) }

/-- Return value of `ForecastManager.get_summary`. -/
structure SummaryInfo where
  total_models : ℕ
  fitted_models : ℕ
  models_with_predictions : ℕ
  model_names : List String
deriving DecidableEq

/-- `ForecastManager.get_summary`: read-only counts over the registry and the
stored predictions. -/
def ForecastManager.get_summary (mgr : ForecastManager) : SummaryInfo :=
  { total_models := mgr.models.length
    fitted_models := (mgr.models.filter (fun p => p.2.is_fitted)).length
    models_with_predictions := mgr.predictions.length
    model_names := mgr.models.map Prod.fst }

/-- The rows of `combined` in `get_ensemble_predictions`: every stored
prediction frame concatenated (the `model` tag column is added in the source
but never used by the aggregation). -/
def allRows (mgr : ForecastManager) : List PredictionRecord :=
  (mgr.predictions.map Prod.snd).flatten

/-- The groupby group of one date: all concatenated rows carrying it. -/
def rowsAt (mgr : ForecastManager) (d : ℤ) : List PredictionRecord :=
  (allRows mgr).filter (fun r => r.date = d)

/-- Insertion step of an ascending insertion sort on dates. -/
def insertZ (x : ℤ) : List ℤ → List ℤ
  | [] => [x]
  | y :: ys => if x ≤ y then x :: y :: ys else y :: insertZ x ys

/-- Ascending sort on dates (`groupby` sorts its keys). -/
def sortZ (l : List ℤ) : List ℤ := l.foldr insertZ []

/-- The group keys of `combined.groupby('date')`: the distinct dates of the
concatenated rows, ascending. -/
def ensembleDates (mgr : ForecastManager) : List ℤ :=
  sortZ (((allRows mgr).map (fun r => r.date)).dedup)

/-- The `mean` aggregation row of one date: column-wise mean over the group. -/
def aggMeanAt (mgr : ForecastManager) (d : ℤ) : PredictionRecord :=
  { date := d
    prediction := qMean ((rowsAt mgr d).map (fun r => r.prediction))
    lower_bound := qMean ((rowsAt mgr d).map (fun r => r.lower_bound))
    upper_bound := qMean ((rowsAt mgr d).map (fun r => r.upper_bound)) }

/-- The `median` aggregation row of one date: median of predictions, min of
lower bounds, max of upper bounds over the group. -/
def aggMedianAt (mgr : ForecastManager) (d : ℤ) : PredictionRecord :=
  { date := d
    prediction := medianQ ((rowsAt mgr d).map (fun r => r.prediction))
    lower_bound := listMin ((rowsAt mgr d).map (fun r => r.lower_bound))
    upper_bound := listMax ((rowsAt mgr d).map (fun r => r.upper_bound)) }

/-- `ForecastManager.get_ensemble_predictions`: raise if no predictions are
stored, concatenate all stored frames, group by date and aggregate per the
method, raise on an unknown method. -/
def ForecastManager.get_ensemble_predictions (mgr : ForecastManager)
    (method : String) : Except ForecastError (List PredictionRecord) :=
  if mgr.predictions.isEmpty then
    .error (.stateError "No predictions available. Run predict_all() first.")
  else if method = "mean" then
    .ok ((ensembleDates mgr).map (aggMeanAt mgr))
  else if method = "median" then
    .ok ((ensembleDates mgr).map (aggMedianAt mgr))
  else
    .error (.configurationError ("Unknown aggregation method: " ++ method))

/-- State-passing form of `get_ensemble_predictions`: the method body never
assigns to a `self` field, so the post-state is the pre-state. -/
def ForecastManager.get_ensemble_predictions_run (mgr : ForecastManager)
    (method : String) :
    Except ForecastError (List PredictionRecord) × ForecastManager :=
  (mgr.get_ensemble_predictions method, mgr)

/-- The one stored value a model contributes to a date: sum of the
`f`-column over its rows at that date (equal to the model's single value at
the date when the model has exactly one row there). -/
def valueAt (f : PredictionRecord → ℚ) (ps : List PredictionRecord) (d : ℤ) : ℚ :=
  ((ps.filter (fun r => r.date = d)).map f).sum

/-- Square-root stand-in for concrete evaluations whose variances are 0 (it is
exact there: the square root of 0 is 0). -/
def sqZero : ℚ → ℚ := fun _ => 0

/-- A concrete fitted regression model: one stored historical value, regressor
constantly 2. -/
def mlSampleFitted : MLRegressionModel :=
  { name := "MLRegression", is_fitted := true, last_date := 0
    lastValues := [1], model := fun _ => 2 }

/-- A concrete unfitted regression model. -/
def mlSampleUnfitted : MLRegressionModel :=
  { name := "MLRegression", is_fitted := false, last_date := 0
    lastValues := [], model := fun _ => 0 }

/-- A concrete fitted ARIMA wrapper. -/
def arimaSampleFitted : ARIMAModel :=
  { name := "ARIMA", is_fitted := true, last_date := 0
    forecastFn := fun _ _ => (1, 0, 2) }

/-- A concrete unfitted ARIMA wrapper. -/
def arimaSampleUnfitted : ARIMAModel :=
  { name := "ARIMA", is_fitted := false, last_date := 0
    forecastFn := fun _ _ => (0, 0, 0) }

/-- A concrete unfitted Prophet wrapper. -/
def prophetSampleUnfitted : ProphetModel :=
  { name := "Prophet", is_fitted := false, forecastFn := fun _ => [] }

/-- A concrete manager holding one stored prediction set. -/
def mgrSampleOne : ForecastManager :=
  { models := [("A", { name := "A", is_fitted := true, fit_raises := false })]
    predictions := [("A", [{ date := 1, prediction := 10, lower_bound := 8, upper_bound := 12 }])] }

/-- A concrete manager with three registered unfitted models of which exactly
the second raises during fit. -/
def mgrSampleThree : ForecastManager :=
  { models :=
      [ ("A", { name := "A", is_fitted := false, fit_raises := false })
      , ("B", { name := "B", is_fitted := false, fit_raises := true })
      , ("C", { name := "C", is_fitted := false, fit_raises := false }) ]
    predictions := [] }

/-- A concrete manager whose two stored prediction sets cover different dates
(model "a" only date 0, model "b" only date 1). -/
def mgrSampleSplit : ForecastManager :=
  { models :=
      [ ("a", { name := "a", is_fitted := true, fit_raises := false })
      , ("b", { name := "b", is_fitted := true, fit_raises := false }) ]
    predictions :=
      [ ("a", [{ date := 0, prediction := 1, lower_bound := 1, upper_bound := 1 }])
      , ("b", [{ date := 1, prediction := 3, lower_bound := 3, upper_bound := 3 }]) ] }

/-- A concrete manager whose two stored prediction sets are aligned on the
single date 5. -/
def mgrSampleAligned : ForecastManager :=
  { models :=
      [ ("a", { name := "a", is_fitted := true, fit_raises := false })
      , ("b", { name := "b", is_fitted := true, fit_raises := false }) ]
    predictions :=
      [ ("a", [{ date := 5, prediction := 10, lower_bound := 8, upper_bound := 12 }])
      , ("b", [{ date := 5, prediction := 20, lower_bound := 14, upper_bound := 30 }]) ] }

/-- Decidable equality on `Except` results, for evaluating concrete runs. -/
instance {e a : Type} [DecidableEq e] [DecidableEq a] : DecidableEq (Except e a) :=
  fun x y =>
    match x, y with
    | .ok u, .ok v =>
      if h : u = v then .isTrue (congrArg Except.ok h)
      else .isFalse (fun hc => h (Except.ok.inj hc))
    | .error u, .error v =>
      if h : u = v then .isTrue (congrArg Except.error h)
      else .isFalse (fun hc => h (Except.error.inj hc))
    | .ok _, .error _ => .isFalse (fun hc => Except.noConfusion hc)
    | .error _, .ok _ => .isFalse (fun hc => Except.noConfusion hc)

/-! Theorems. -/

/-- C6: for every model variant (regression, ARIMA/statistical, decomposition)
in the unfitted state, `predict(periods)` fails with the StateError ("not
fitted"), for every value of `periods`. -/
theorem C6_unfitted_predict_fails (m : MLRegressionModel) (a : ARIMAModel)
    (ph : ProphetModel) (sq : ℚ → ℚ) (k : ℕ)
    (hm : m.is_fitted = false) (ha : a.is_fitted = false)
    (hp : ph.is_fitted = false) :
    m.predict sq k
        = .error (.stateError "Model must be fitted before making predictions")
    ∧ a.predict k
        = .error (.stateError "Model must be fitted before making predictions")
    ∧ ph.predict k
        = .error (.stateError "Model must be fitted before making predictions") := by
  refine ⟨?_, ?_, ?_⟩ <;>
    simp [MLRegressionModel.predict, ARIMAModel.predict, ProphetModel.predict,
      hm, ha, hp]

/-- Witness for C6 at concrete unfitted models and `periods = 4`. -/
theorem C6_witness :
    mlSampleUnfitted.is_fitted = false ∧ arimaSampleUnfitted.is_fitted = false
    ∧ prophetSampleUnfitted.is_fitted = false
    ∧ (mlSampleUnfitted.predict sqZero 4
        = .error (.stateError "Model must be fitted before making predictions")
      ∧ arimaSampleUnfitted.predict 4
        = .error (.stateError "Model must be fitted before making predictions")
      ∧ prophetSampleUnfitted.predict 4
        = .error (.stateError "Model must be fitted before making predictions")) :=
  ⟨rfl, rfl, rfl,
    C6_unfitted_predict_fails mlSampleUnfitted arimaSampleUnfitted
      prophetSampleUnfitted sqZero 4 rfl rfl rfl⟩

/-- C10: for every fitted regression model, `predict(0)` does not return an
empty prediction set: the empty predictions frame has no `prediction` column,
so the bound-column step raises a KeyError. -/
theorem C10_predict_zero_fails (m : MLRegressionModel) (sq : ℚ → ℚ)
    (hm : m.is_fitted = true) :
    m.predict sq 0 = .error (.keyError "prediction") := by
  simp [MLRegressionModel.predict, hm, mlPredictLoop, mlAddBounds]

/-- Witness for C10 at a concrete fitted regression model. -/
theorem C10_witness :
    mlSampleFitted.is_fitted = true
    ∧ mlSampleFitted.predict sqZero 0 = .error (.keyError "prediction") :=
  ⟨rfl, C10_predict_zero_fails mlSampleFitted sqZero rfl⟩

/-- C8: with at least one stored prediction set, an aggregation method other
than "mean" or "median" fails with the ConfigurationError and the manager
state is exactly what it was before the call. -/
theorem C8_unknown_method (mgr : ForecastManager) (method : String)
    (hne : mgr.predictions ≠ []) (h1 : method ≠ "mean") (h2 : method ≠ "median") :
    (mgr.get_ensemble_predictions_run method).1
        = .error (.configurationError ("Unknown aggregation method: " ++ method))
    ∧ (mgr.get_ensemble_predictions_run method).2 = mgr := by
  refine ⟨?_, rfl⟩
  cases hp : mgr.predictions with
  | nil => exact absurd hp hne
  | cons q qs =>
    simp [ForecastManager.get_ensemble_predictions_run,
      ForecastManager.get_ensemble_predictions, hp, h1, h2]

/-- Witness for C8 at a concrete manager and the method string "weighted". -/
theorem C8_witness :
    mgrSampleOne.predictions ≠ [] ∧ "weighted" ≠ "mean" ∧ "weighted" ≠ "median"
    ∧ ((mgrSampleOne.get_ensemble_predictions_run "weighted").1
        = .error (.configurationError ("Unknown aggregation method: " ++ "weighted"))
      ∧ (mgrSampleOne.get_ensemble_predictions_run "weighted").2 = mgrSampleOne) :=
  ⟨by simp [mgrSampleOne], by decide, by decide,
    C8_unknown_method mgrSampleOne "weighted" (by simp [mgrSampleOne])
      (by decide) (by decide)⟩

/-- Counting helper for `fit_all`: starting from all-unfitted models, the
fitted models after the run plus the models whose fit raised account for the
whole registry. -/
theorem fitAll_fitted_count (l : List (String × BaseModelState))
    (h : ∀ p ∈ l, p.2.is_fitted = false) :
    ((l.map (fun p =>
        match p.2.fit with
        | .ok m2 => (p.1, m2)
        | .error _ => p)).filter (fun p => p.2.is_fitted)).length
      + (l.filter (fun p => p.2.fit_raises)).length = l.length := by
  induction l with
  | nil => rfl
  | cons a l ih =>
    have ha := h a (List.mem_cons_self a l)
    have hl : ∀ p ∈ l, p.2.is_fitted = false :=
      fun p hp => h p (List.mem_cons_of_mem a hp)
    have ihl := ih hl
    by_cases hr : a.2.fit_raises
    · have hstep : (match a.2.fit with
          | .ok m2 => (a.1, m2)
          | .error _ => a) = a := by
        simp [BaseModelState.fit, hr]
      simp only [List.map_cons, hstep, List.filter_cons, ha, hr]
      simp only [decide_False, Bool.false_eq_true, if_false, decide_True, if_true,
        List.length_cons]
      omega
    · have hstep : (match a.2.fit with
          | .ok m2 => (a.1, m2)
          | .error _ => a) = (a.1, { a.2 with is_fitted := true }) := by
        simp [BaseModelState.fit, hr]
      simp only [List.map_cons, hstep, List.filter_cons, hr]
      simp only [decide_False, Bool.false_eq_true, if_false, decide_True, if_true,
        List.length_cons]
      omega

/-- C7: `fit_all` catches a model's fit failure and continues (as a total
function of the manager state it cannot raise); with three registered
unfitted models of which exactly one raises during fit, `get_summary` then
reports 2 fitted models. -/
theorem C7_fit_all_partial_failure (mgr : ForecastManager)
    (h0 : ∀ p ∈ mgr.models, p.2.is_fitted = false)
    (h3 : mgr.models.length = 3)
    (h1 : (mgr.models.filter (fun p => p.2.fit_raises)).length = 1) :
    (mgr.fit_all.get_summary).fitted_models = 2 := by
  have hc := fitAll_fitted_count mgr.models h0
  simp only [ForecastManager.fit_all, ForecastManager.get_summary] at *
  omega

/-- Witness for C7 at a concrete three-model manager whose second model
raises during fit. -/
theorem C7_witness :
    (∀ p ∈ mgrSampleThree.models, p.2.is_fitted = false)
    ∧ mgrSampleThree.models.length = 3
    ∧ (mgrSampleThree.models.filter (fun p => p.2.fit_raises)).length = 1
    ∧ (mgrSampleThree.fit_all.get_summary).fitted_models = 2 :=
  ⟨by decide, by decide, by decide,
    C7_fit_all_partial_failure mgrSampleThree (by decide) (by decide) (by decide)⟩

/-- The forecast loop produces one raw prediction per period of fuel. -/
theorem mlPredictLoop_length (m : MLRegressionModel) (sq : ℚ → ℚ) :
    ∀ (n i : ℕ) (cur : List ℚ), (mlPredictLoop m sq n i cur).length = n := by
  intro n
  induction n with
  | zero => intro i cur; rfl
  | succ n ih => intro i cur; simp [mlPredictLoop, ih]

/-- With at least one period of fuel the forecast loop output is nonempty. -/
theorem mlPredictLoop_ne_nil (m : MLRegressionModel) (sq : ℚ → ℚ)
    (n i : ℕ) (cur : List ℚ) (hn : 1 ≤ n) :
    mlPredictLoop m sq n i cur ≠ [] := by
  intro hcon
  have hlen := mlPredictLoop_length m sq n i cur
  rw [hcon] at hlen
  simp at hlen
  omega

/-- On a nonempty raw prediction list the bound-attachment step succeeds and
maps `boundsRow` over the rows. -/
theorem mlAddBounds_of_ne_nil (sq : ℚ → ℚ) (m : MLRegressionModel)
    (raw : List (ℤ × ℚ)) (h : raw ≠ []) :
    mlAddBounds sq m raw = .ok (raw.map (boundsRow sq m)) := by
  cases raw with
  | nil => exact absurd rfl h
  | cons p ps => rfl

/-- Dates produced by the forecast loop: consecutive months counted from the
iteration offset. -/
theorem mlPredictLoop_dates (m : MLRegressionModel) (sq : ℚ → ℚ) :
    ∀ (n i : ℕ) (cur : List ℚ),
      (mlPredictLoop m sq n i cur).map Prod.fst
        = (List.range n).map (fun (t : ℕ) => m.last_date + ((i : ℤ) + (t : ℤ) + 1)) := by
  intro n
  induction n with
  | zero => intro i cur; rfl
  | succ n ih =>
    intro i cur
    rw [List.range_succ_eq_map, List.map_cons, List.map_map]
    simp only [mlPredictLoop, List.map_cons, ih]
    refine List.cons_eq_cons.mpr ⟨by push_cast; ring, ?_⟩
    apply List.map_congr_left
    intro t _
    simp only [Function.comp_apply]
    push_cast
    ring

/-- Taking a prefix of the forecast loop with more fuel equals running the
loop with that much fuel: the loop state at a step depends only on the
earlier steps. -/
theorem mlPredictLoop_take (m : MLRegressionModel) (sq : ℚ → ℚ) :
    ∀ (j k i : ℕ) (cur : List ℚ), j ≤ k →
      (mlPredictLoop m sq k i cur).take j = mlPredictLoop m sq j i cur := by
  intro j
  induction j with
  | zero => intro k i cur _; rfl
  | succ j ih =>
    intro k i cur h
    cases k with
    | zero => omega
    | succ k =>
      simp only [mlPredictLoop, List.take_succ_cons]
      rw [ih k (i + 1) _ (Nat.le_of_succ_le_succ h)]

/-- C1 counterexample at `j = 0`: for a concrete fitted regression model,
taking the first 0 records of `predict(1)` yields an empty record list while
`predict(0)` raises instead of yielding any records. -/
theorem C1_counterexample :
    (mlSampleFitted.predict sqZero 1).map (fun l => l.take 0)
        = .ok ([] : List PredictionRecord)
    ∧ mlSampleFitted.predict sqZero 0 = .error (.keyError "prediction") :=
  ⟨rfl, rfl⟩

/-- C1 (amended to `1 ≤ j`): for a fixed fitted regression model, the first
`j` records of `predict(k)` equal the records of `predict(j)` whenever
`1 ≤ j < k`. -/
theorem C1_take_of_longer_horizon (m : MLRegressionModel) (sq : ℚ → ℚ)
    (j k : ℕ) (hm : m.is_fitted = true) (hj : 1 ≤ j) (hjk : j < k) :
    (m.predict sq k).map (fun l => l.take j) = m.predict sq j := by
  have hkne : mlPredictLoop m sq k 0 m.lastValues ≠ [] :=
    mlPredictLoop_ne_nil m sq k 0 m.lastValues (by omega)
  have hjne : mlPredictLoop m sq j 0 m.lastValues ≠ [] :=
    mlPredictLoop_ne_nil m sq j 0 m.lastValues hj
  simp only [MLRegressionModel.predict, hm, if_true,
    mlAddBounds_of_ne_nil sq m _ hkne, mlAddBounds_of_ne_nil sq m _ hjne,
    Except.map]
  rw [← List.map_take, mlPredictLoop_take m sq j k 0 m.lastValues (Nat.le_of_lt hjk)]

/-- Witness for the amended C1 at a concrete fitted model, `j = 1`, `k = 2`. -/
theorem C1_witness :
    mlSampleFitted.is_fitted = true ∧ 1 ≤ 1 ∧ 1 < 2
    ∧ (mlSampleFitted.predict sqZero 2).map (fun l => l.take 1)
        = mlSampleFitted.predict sqZero 1 :=
  ⟨rfl, le_refl 1, by omega,
    C1_take_of_longer_horizon mlSampleFitted sqZero 1 2 rfl (le_refl 1) (by omega)⟩

/-- C4: every record of a fitted regression model's `predict(k)` carries the
same symmetric interval: both half-widths equal `1.96 * 0.5 *` the standard
deviation of the stored historical target values, a constant independent of
the record, so the interval does not widen with horizon distance. -/
theorem C4_fixed_halfwidth (m : MLRegressionModel) (sq : ℚ → ℚ) (k : ℕ)
    (hm : m.is_fitted = true) (hk : 1 ≤ k) :
    ∀ recs, m.predict sq k = .ok recs → ∀ r ∈ recs,
      r.upper_bound - r.prediction = (196 / 100) * ((1 / 2) * histStd sq m)
      ∧ r.prediction - r.lower_bound = (196 / 100) * ((1 / 2) * histStd sq m) := by
  intro recs hrecs r hr
  have hkne : mlPredictLoop m sq k 0 m.lastValues ≠ [] :=
    mlPredictLoop_ne_nil m sq k 0 m.lastValues hk
  rw [MLRegressionModel.predict, hm, if_pos rfl,
    mlAddBounds_of_ne_nil sq m _ hkne] at hrecs
  cases hrecs
  obtain ⟨p, _, rfl⟩ := List.mem_map.mp hr
  constructor <;> (simp only [boundsRow]; ring)

/-- Witness for C4 at a concrete fitted model and horizon 2. -/
theorem C4_witness :
    mlSampleFitted.is_fitted = true ∧ 1 ≤ 2
    ∧ (∀ recs, mlSampleFitted.predict sqZero 2 = .ok recs → ∀ r ∈ recs,
        r.upper_bound - r.prediction
            = (196 / 100) * ((1 / 2) * histStd sqZero mlSampleFitted)
        ∧ r.prediction - r.lower_bound
            = (196 / 100) * ((1 / 2) * histStd sqZero mlSampleFitted)) :=
  ⟨rfl, by omega, C4_fixed_halfwidth mlSampleFitted sqZero 2 rfl (by omega)⟩

/-- C5: in the fitted state and for every horizon `k ≥ 1`, the regression
model's and the ARIMA wrapper's `predict(k)` return exactly `k` records whose
dates are the `k` consecutive months immediately after the stored last
training date, each strictly after it. -/
theorem C5_predict_dates (m : MLRegressionModel) (a : ARIMAModel)
    (sq : ℚ → ℚ) (k : ℕ) (hk : 1 ≤ k)
    (hm : m.is_fitted = true) (ha : a.is_fitted = true) :
    (∃ recs, m.predict sq k = .ok recs ∧ recs.length = k
      ∧ recs.map (fun r => r.date)
          = (List.range k).map (fun (t : ℕ) => m.last_date + ((t : ℤ) + 1))
      ∧ ∀ r ∈ recs, m.last_date < r.date)
    ∧ (∃ recs, a.predict k = .ok recs ∧ recs.length = k
      ∧ recs.map (fun r => r.date)
          = (List.range k).map (fun (t : ℕ) => a.last_date + ((t : ℤ) + 1))
      ∧ ∀ r ∈ recs, a.last_date < r.date) := by
  constructor
  · have hkne : mlPredictLoop m sq k 0 m.lastValues ≠ [] :=
      mlPredictLoop_ne_nil m sq k 0 m.lastValues hk
    refine ⟨(mlPredictLoop m sq k 0 m.lastValues).map (boundsRow sq m), ?_, ?_, ?_, ?_⟩
    · rw [MLRegressionModel.predict, hm, if_pos rfl, mlAddBounds_of_ne_nil sq m _ hkne]
    · rw [List.length_map, mlPredictLoop_length]
    · rw [List.map_map]
      have hfst : (fun r => PredictionRecord.date r) ∘ boundsRow sq m
          = Prod.fst := by
        funext p
        rfl
      rw [hfst, mlPredictLoop_dates]
      apply List.map_congr_left
      intro t _
      push_cast
      ring
    · intro r hr
      obtain ⟨p, hp, rfl⟩ := List.mem_map.mp hr
      have hdates := mlPredictLoop_dates m sq k 0 m.lastValues
      have hmem : p.1 ∈ (mlPredictLoop m sq k 0 m.lastValues).map Prod.fst :=
        List.mem_map.mpr ⟨p, hp, rfl⟩
      rw [hdates] at hmem
      obtain ⟨t, _, hteq⟩ := List.mem_map.mp hmem
      show m.last_date < p.1
      omega
  · refine ⟨(List.range k).map (fun (i : ℕ) =>
      { date := a.last_date + ((i : ℤ) + 1)
        prediction := (a.forecastFn k i).1
        lower_bound := (a.forecastFn k i).2.1
        upper_bound := (a.forecastFn k i).2.2 }), ?_, ?_, ?_, ?_⟩
    · rw [ARIMAModel.predict, ha, if_pos rfl]
    · simp
    · rw [List.map_map]
      apply List.map_congr_left
      intro t _
      simp only [Function.comp_apply]
    · intro r hr
      obtain ⟨t, _, rfl⟩ := List.mem_map.mp hr
      simp only []
      omega

/-- Witness for C5 at concrete fitted models and horizon 1. -/
theorem C5_witness :
    (1 : ℕ) ≤ 1 ∧ mlSampleFitted.is_fitted = true
    ∧ arimaSampleFitted.is_fitted = true
    ∧ ((∃ recs, mlSampleFitted.predict sqZero 1 = .ok recs ∧ recs.length = 1
        ∧ recs.map (fun r => r.date)
            = (List.range 1).map (fun (t : ℕ) => mlSampleFitted.last_date + ((t : ℤ) + 1))
        ∧ ∀ r ∈ recs, mlSampleFitted.last_date < r.date)
      ∧ (∃ recs, arimaSampleFitted.predict 1 = .ok recs ∧ recs.length = 1
        ∧ recs.map (fun r => r.date)
            = (List.range 1).map (fun (t : ℕ) => arimaSampleFitted.last_date + ((t : ℤ) + 1))
        ∧ ∀ r ∈ recs, arimaSampleFitted.last_date < r.date)) :=
  ⟨le_refl 1, rfl, rfl,
    C5_predict_dates mlSampleFitted arimaSampleFitted sqZero 1 (le_refl 1) rfl rfl⟩

/-- Membership in the insertion step of the date sort. -/
theorem mem_insertZ (x a : ℤ) (l : List ℤ) :
    a ∈ insertZ x l ↔ a = x ∨ a ∈ l := by
  induction l with
  | nil => simp [insertZ]
  | cons y ys ih =>
    simp only [insertZ]
    split
    · simp [List.mem_cons]
    · simp only [List.mem_cons, ih]
      tauto

/-- Sorting the date keys preserves membership. -/
theorem mem_sortZ (a : ℤ) (l : List ℤ) : a ∈ sortZ l ↔ a ∈ l := by
  induction l with
  | nil => simp [sortZ]
  | cons y ys ih =>
    show a ∈ insertZ y (sortZ ys) ↔ _
    rw [mem_insertZ, ih]
    simp [List.mem_cons]

/-- A row belongs to the concatenated frame exactly when some stored
prediction set contains it. -/
theorem mem_allRows (mgr : ForecastManager) (r : PredictionRecord) :
    r ∈ allRows mgr ↔ ∃ p ∈ mgr.predictions, r ∈ p.2 := by
  simp only [allRows, List.mem_flatten, List.mem_map]
  constructor
  · rintro ⟨l, ⟨p, hp, rfl⟩, hr⟩
    exact ⟨p, hp, hr⟩
  · rintro ⟨p, hp, hr⟩
    exact ⟨p.2, ⟨p, hp, rfl⟩, hr⟩

/-- A date is a group key exactly when some concatenated row carries it. -/
theorem mem_ensembleDates (mgr : ForecastManager) (d : ℤ) :
    d ∈ ensembleDates mgr ↔ ∃ r ∈ allRows mgr, r.date = d := by
  rw [ensembleDates, mem_sortZ, List.mem_dedup, List.mem_map]

/-- Dates carried by the rows of a map whose function tags each key with
itself. -/
theorem mem_map_of_dates {g : ℤ → PredictionRecord} (hg : ∀ x, (g x).date = x)
    (ds : List ℤ) (d : ℤ) :
    (∃ r ∈ ds.map g, r.date = d) ↔ d ∈ ds := by
  constructor
  · rintro ⟨r, hr, hd⟩
    obtain ⟨x, hx, rfl⟩ := List.mem_map.mp hr
    rw [hg] at hd
    rwa [← hd]
  · intro hd
    exact ⟨g d, List.mem_map_of_mem g hd, hg d⟩

/-- The dates of an aggregated output are exactly the dates present in some
stored prediction set. -/
theorem ensemble_out_dates (mgr : ForecastManager) (g : ℤ → PredictionRecord)
    (hg : ∀ x, (g x).date = x) (d : ℤ) :
    (∃ r ∈ (ensembleDates mgr).map g, r.date = d)
      ↔ ∃ p ∈ mgr.predictions, ∃ r ∈ p.2, r.date = d := by
  rw [mem_map_of_dates hg, mem_ensembleDates]
  constructor
  · rintro ⟨r, hr, hd⟩
    obtain ⟨p, hp, hrp⟩ := (mem_allRows mgr r).mp hr
    exact ⟨p, hp, r, hrp, hd⟩
  · rintro ⟨p, hp, r, hrp, hd⟩
    exact ⟨r, (mem_allRows mgr r).mpr ⟨p, hp, hrp⟩, hd⟩

/-- On a manager with stored predictions, the "mean" method returns the
per-date mean rows over the sorted distinct dates. -/
theorem get_ensemble_mean_eq (mgr : ForecastManager)
    (h : mgr.predictions ≠ []) :
    mgr.get_ensemble_predictions "mean"
      = .ok ((ensembleDates mgr).map (aggMeanAt mgr)) := by
  have hfalse : mgr.predictions.isEmpty = false := by
    cases hp : mgr.predictions with
    | nil => exact absurd hp h
    | cons q qs => rfl
  simp [ForecastManager.get_ensemble_predictions, hfalse]

/-- On a manager with stored predictions, the "median" method returns the
per-date median/min/max rows over the sorted distinct dates. -/
theorem get_ensemble_median_eq (mgr : ForecastManager)
    (h : mgr.predictions ≠ []) :
    mgr.get_ensemble_predictions "median"
      = .ok ((ensembleDates mgr).map (aggMedianAt mgr)) := by
  have hfalse : mgr.predictions.isEmpty = false := by
    cases hp : mgr.predictions with
    | nil => exact absurd hp h
    | cons q qs => rfl
  simp [ForecastManager.get_ensemble_predictions, hfalse]

/-- A successful ensemble call means predictions were stored. -/
theorem ensemble_ok_ne_nil (mgr : ForecastManager) (method : String)
    (out : List PredictionRecord)
    (hout : mgr.get_ensemble_predictions method = .ok out) :
    mgr.predictions ≠ [] := by
  intro hp
  rw [ForecastManager.get_ensemble_predictions, hp] at hout
  simp at hout

/-- C2 counterexample: a concrete manager whose two stored sets cover the
disjoint dates 0 and 1; the mean ensemble output carries both dates even
though neither date appears in every stored set. -/
theorem C2_counterexample :
    (mgrSampleSplit.get_ensemble_predictions "mean").map
        (fun l => l.map (fun r => r.date)) = .ok [0, 1]
    ∧ mgrSampleSplit.predictions.map (fun p => p.2.map (fun r => r.date))
        = [[0], [1]] := by
  constructor
  · rfl
  · rfl

/-- C2 (amended from inner join to union/outer join): a date appears in the
ensemble output exactly when it appears in at least one model's stored
prediction set (the source groups the concatenation of all sets by date, so
group keys are the union of the dates, not their intersection). -/
theorem C2_ensemble_dates_union (mgr : ForecastManager) (method : String)
    (hmethod : method = "mean" ∨ method = "median")
    (out : List PredictionRecord)
    (hout : mgr.get_ensemble_predictions method = .ok out) (d : ℤ) :
    (∃ r ∈ out, r.date = d) ↔ ∃ p ∈ mgr.predictions, ∃ r ∈ p.2, r.date = d := by
  have hne := ensemble_ok_ne_nil mgr method out hout
  rcases hmethod with h | h <;> subst h
  · rw [get_ensemble_mean_eq mgr hne] at hout
    cases hout
    exact ensemble_out_dates mgr (aggMeanAt mgr) (fun x => rfl) d
  · rw [get_ensemble_median_eq mgr hne] at hout
    cases hout
    exact ensemble_out_dates mgr (aggMedianAt mgr) (fun x => rfl) d

/-- Witness for the amended C2 at a concrete two-model manager and date 5. -/
theorem C2_witness :
    ("mean" = "mean" ∨ "mean" = "median")
    ∧ mgrSampleAligned.get_ensemble_predictions "mean"
        = .ok ((ensembleDates mgrSampleAligned).map (aggMeanAt mgrSampleAligned))
    ∧ ((∃ r ∈ (ensembleDates mgrSampleAligned).map (aggMeanAt mgrSampleAligned),
          r.date = 5)
        ↔ ∃ p ∈ mgrSampleAligned.predictions, ∃ r ∈ p.2, r.date = 5) :=
  ⟨Or.inl rfl, get_ensemble_mean_eq mgrSampleAligned (by decide),
    C2_ensemble_dates_union mgrSampleAligned "mean" (Or.inl rfl) _
      (get_ensemble_mean_eq mgrSampleAligned (by decide)) 5⟩

/-- Decomposition of a groupby group: when every stored set has exactly one
row at the date, a column of the group is, in order, that column of each
set's row at the date. -/
theorem filtered_flatten_map (sets : List (List PredictionRecord)) (d : ℤ)
    (f : PredictionRecord → ℚ)
    (h : ∀ ps ∈ sets, (ps.filter (fun r => r.date = d)).length = 1) :
    (sets.flatten.filter (fun r => r.date = d)).map f
      = sets.map (fun ps => ((ps.filter (fun r => r.date = d)).map f).sum) := by
  induction sets with
  | nil => rfl
  | cons ps rest ih =>
    have h1 := h ps (List.mem_cons_self _ _)
    obtain ⟨r, hr⟩ := List.length_eq_one.mp h1
    have hrest := ih (fun q hq => h q (List.mem_cons_of_mem _ hq))
    rw [List.flatten_cons, List.filter_append, List.map_append, hrest,
      List.map_cons, hr]
    simp

/-- A row of an aggregated output is the aggregation row of its own date. -/
theorem out_row_eq {g : ℤ → PredictionRecord} (hg : ∀ x, (g x).date = x)
    {ds : List ℤ} {r : PredictionRecord} (hr : r ∈ ds.map g) : r = g r.date := by
  obtain ⟨x, hx, rfl⟩ := List.mem_map.mp hr
  rw [hg]

/-- Each aggregated column over the group at a date equals the per-model
column values in registry order, when every stored set has exactly one row at
the date. -/
theorem rowsAt_map_eq (mgr : ForecastManager) (d : ℤ)
    (hone : ∀ p ∈ mgr.predictions, (p.2.filter (fun r => r.date = d)).length = 1)
    (f : PredictionRecord → ℚ) :
    (rowsAt mgr d).map f = mgr.predictions.map (fun p => valueAt f p.2 d) := by
  have hsets : ∀ ps ∈ mgr.predictions.map Prod.snd,
      (ps.filter (fun r => r.date = d)).length = 1 := by
    intro ps hps
    obtain ⟨p, hp, rfl⟩ := List.mem_map.mp hps
    exact hone p hp
  rw [rowsAt, allRows, filtered_flatten_map _ _ _ hsets, List.map_map]
  rfl

/-- C3: at every date of the mean-ensemble output, the point estimate is the
arithmetic mean - sum divided by the number of registered models - of the
models' stored point estimates at that date, and each bound is likewise the
mean of the corresponding stored bounds. -/
theorem C3_ensemble_mean (mgr : ForecastManager)
    (out : List PredictionRecord) (d : ℤ)
    (hnames : mgr.models.map Prod.fst = mgr.predictions.map Prod.fst)
    (hout : mgr.get_ensemble_predictions "mean" = .ok out)
    (hone : ∀ p ∈ mgr.predictions, (p.2.filter (fun r => r.date = d)).length = 1)
    (r : PredictionRecord) (hr : r ∈ out) (hd : r.date = d) :
    r.prediction
        = (mgr.predictions.map
            (fun p => valueAt (fun q => q.prediction) p.2 d)).sum
          / (mgr.models.length : ℚ)
    ∧ r.lower_bound
        = (mgr.predictions.map
            (fun p => valueAt (fun q => q.lower_bound) p.2 d)).sum
          / (mgr.models.length : ℚ)
    ∧ r.upper_bound
        = (mgr.predictions.map
            (fun p => valueAt (fun q => q.upper_bound) p.2 d)).sum
          / (mgr.models.length : ℚ) := by
  have hne := ensemble_ok_ne_nil mgr "mean" out hout
  rw [get_ensemble_mean_eq mgr hne] at hout
  cases hout
  have hrd := out_row_eq (g := aggMeanAt mgr) (fun x => rfl) hr
  rw [hd] at hrd
  subst hrd
  have hlen : mgr.models.length = mgr.predictions.length := by
    simpa using congrArg List.length hnames
  refine ⟨?_, ?_, ?_⟩ <;>
  · simp only [aggMeanAt, qMean, rowsAt_map_eq mgr d hone]
    rw [List.length_map, hlen]

/-- Witness for C3 at a concrete two-model manager aligned on date 5. -/
theorem C3_witness :
    mgrSampleAligned.models.map Prod.fst = mgrSampleAligned.predictions.map Prod.fst
    ∧ mgrSampleAligned.get_ensemble_predictions "mean"
        = .ok ((ensembleDates mgrSampleAligned).map (aggMeanAt mgrSampleAligned))
    ∧ (∀ p ∈ mgrSampleAligned.predictions,
        (p.2.filter (fun r => r.date = 5)).length = 1)
    ∧ aggMeanAt mgrSampleAligned 5
        ∈ (ensembleDates mgrSampleAligned).map (aggMeanAt mgrSampleAligned)
    ∧ ((aggMeanAt mgrSampleAligned 5).prediction
        = (mgrSampleAligned.predictions.map
            (fun p => valueAt (fun q => q.prediction) p.2 5)).sum
          / (mgrSampleAligned.models.length : ℚ)
      ∧ (aggMeanAt mgrSampleAligned 5).lower_bound
        = (mgrSampleAligned.predictions.map
            (fun p => valueAt (fun q => q.lower_bound) p.2 5)).sum
          / (mgrSampleAligned.models.length : ℚ)
      ∧ (aggMeanAt mgrSampleAligned 5).upper_bound
        = (mgrSampleAligned.predictions.map
            (fun p => valueAt (fun q => q.upper_bound) p.2 5)).sum
          / (mgrSampleAligned.models.length : ℚ)) :=
  ⟨by decide, get_ensemble_mean_eq mgrSampleAligned (by decide), by decide,
    List.mem_map_of_mem _ (by decide),
    C3_ensemble_mean mgrSampleAligned _ 5 (by decide)
      (get_ensemble_mean_eq mgrSampleAligned (by decide)) (by decide)
      (aggMeanAt mgrSampleAligned 5) (List.mem_map_of_mem _ (by decide)) rfl⟩

/-- C9: at every date of the median-ensemble output, the point estimate is
the median of the models' stored point estimates at that date, the lower
bound is the minimum of their stored lower bounds, and the upper bound is the
maximum of their stored upper bounds. -/
theorem C9_ensemble_median (mgr : ForecastManager)
    (out : List PredictionRecord) (d : ℤ)
    (hnames : mgr.models.map Prod.fst = mgr.predictions.map Prod.fst)
    (hout : mgr.get_ensemble_predictions "median" = .ok out)
    (hone : ∀ p ∈ mgr.predictions, (p.2.filter (fun r => r.date = d)).length = 1)
    (r : PredictionRecord) (hr : r ∈ out) (hd : r.date = d) :
    r.prediction
        = medianQ (mgr.predictions.map
            (fun p => valueAt (fun q => q.prediction) p.2 d))
    ∧ r.lower_bound
        = listMin (mgr.predictions.map
            (fun p => valueAt (fun q => q.lower_bound) p.2 d))
    ∧ r.upper_bound
        = listMax (mgr.predictions.map
            (fun p => valueAt (fun q => q.upper_bound) p.2 d)) := by
  have hne := ensemble_ok_ne_nil mgr "median" out hout
  rw [get_ensemble_median_eq mgr hne] at hout
  cases hout
  have hrd := out_row_eq (g := aggMedianAt mgr) (fun x => rfl) hr
  rw [hd] at hrd
  subst hrd
  refine ⟨?_, ?_, ?_⟩ <;>
  · simp only [aggMedianAt, rowsAt_map_eq mgr d hone]

/-- Witness for C9 at a concrete two-model manager aligned on date 5. -/
theorem C9_witness :
    mgrSampleAligned.models.map Prod.fst = mgrSampleAligned.predictions.map Prod.fst
    ∧ mgrSampleAligned.get_ensemble_predictions "median"
        = .ok ((ensembleDates mgrSampleAligned).map (aggMedianAt mgrSampleAligned))
    ∧ (∀ p ∈ mgrSampleAligned.predictions,
        (p.2.filter (fun r => r.date = 5)).length = 1)
    ∧ aggMedianAt mgrSampleAligned 5
        ∈ (ensembleDates mgrSampleAligned).map (aggMedianAt mgrSampleAligned)
    ∧ ((aggMedianAt mgrSampleAligned 5).prediction
        = medianQ (mgrSampleAligned.predictions.map
            (fun p => valueAt (fun q => q.prediction) p.2 5))
      ∧ (aggMedianAt mgrSampleAligned 5).lower_bound
        = listMin (mgrSampleAligned.predictions.map
            (fun p => valueAt (fun q => q.lower_bound) p.2 5))
      ∧ (aggMedianAt mgrSampleAligned 5).upper_bound
        = listMax (mgrSampleAligned.predictions.map
            (fun p => valueAt (fun q => q.upper_bound) p.2 5))) :=
  ⟨by decide, get_ensemble_median_eq mgrSampleAligned (by decide), by decide,
    List.mem_map_of_mem _ (by decide),
    C9_ensemble_median mgrSampleAligned _ 5 (by decide)
      (get_ensemble_median_eq mgrSampleAligned (by decide)) (by decide)
      (aggMedianAt mgrSampleAligned 5) (List.mem_map_of_mem _ (by decide)) rfl⟩
